import Mathlib

/-!
Verification of the inventory / point-of-sale core of this repository.

The definitions below are a shallow embedding of the Python source
(`src/inventory_app/app.py` and `src/inventory_app/db.py`, the latest
revision of the application; `src/app/app.py` is an earlier iteration of
the same routes).  Database tables become lists of records, the
per-request database connection becomes explicit state passing, and the
commit/rollback behaviour of `DBConnection` is modelled by keeping the
durable (committed) state separate from the in-transaction working
state.  Monetary values (Python floats fed through `round(x, 2)`) are
modelled as rationals with an explicit two-decimal rounding function;
Python integers become `Int`/`Nat`.
-/

namespace Inventory

/-- A row of `inventory_items` (see `init_db` in `src/app/db.py`):
id, owning admin, SKU, name, description, unit price. -/
structure Item where
  id : Nat
  admin_id : Nat
  sku : String
  name : String
  description : String
  unit_price : ℚ
deriving Repr, DecidableEq

/-- A row of the append-only `inventory_stock` delta ledger. -/
structure StockRow where
  item_id : Nat
  delta_quantity : Int
  reason : String
deriving Repr, DecidableEq

/-- A row of `users` (the customer directory); `name` is nullable
(`name or None` at the insert site in `checkout`). -/
structure User where
  id : Nat
  mobile : String
  name : Option String
deriving Repr, DecidableEq

/-- A row of `invoices`. -/
structure Invoice where
  id : Nat
  invoice_number : String
  user_id : Nat
  subtotal : ℚ
  tax : ℚ
  total : ℚ
  admin_id : Nat
  payment_mode : String
deriving Repr, DecidableEq

/-- A row of `invoice_items`. -/
structure InvoiceItem where
  invoice_id : Nat
  item_id : Nat
  quantity : Int
  unit_price : ℚ
  line_total : ℚ
deriving Repr, DecidableEq

/-- The relational store.  `next_user_id` and `next_invoice_id` model the
`AUTOINCREMENT` / serial-sequence counters of the `users` and `invoices`
tables. -/
structure DB where
  items : List Item
  stock : List StockRow
  users : List User
  invoices : List Invoice
  invoice_items : List InvoiceItem
  next_user_id : Nat
  next_invoice_id : Nat
deriving Repr, DecidableEq

/-- `current_stock(conn, item_id)` from `src/inventory_app/app.py` lines
77-79: `SELECT COALESCE(SUM(delta_quantity),0) FROM inventory_stock
WHERE item_id=%s` — the sum of the signed deltas of the rows for the
item (`COALESCE` makes the empty sum 0, which is also the sum of the
empty list). -/
def current_stock (db : DB) (item_id : Nat) : Int :=
  ((db.stock.filter (fun r => r.item_id == item_id)).map
    (fun r => r.delta_quantity)).sum

/-- One line of the session cart `session["checkout_cart"]`: the dict
literal appended in `add_to_cart` (app.py lines 515-521). -/
structure CartLine where
  item_id : Nat
  sku : String
  name : String
  unit_price : ℚ
  qty : Int
deriving Repr, DecidableEq

/-- `SELECT * FROM inventory_items WHERE id=%s AND admin_id=%s`
(ownership-scoped item lookup used by `add_stock` and `add_to_cart`). -/
def findItem (db : DB) (item_id admin_id : Nat) : Option Item :=
  db.items.find? (fun it => it.id == item_id && it.admin_id == admin_id)

/-- Errors surfaced by `add_to_cart` (HTTP 400/404 JSON bodies). -/
inductive CartError
  | invalidQuantity
  | itemNotFound
  | onlyInStock (available : Int)
deriving Repr, DecidableEq

/-- `existing = next((c for c in cart if c["item_id"] == item_id), None);
existing["qty"] += qty` — increment the quantity of the first matching
line, in place. -/
def bumpQty : List CartLine → Nat → Int → List CartLine
  | [], _, _ => []
  | c :: rest, item_id, qty =>
      if c.item_id == item_id then { c with qty := c.qty + qty } :: rest
      else c :: bumpQty rest item_id qty

/-- `add_to_cart` (app.py lines 486-524): reject non-positive quantity,
then unknown/foreign item, then `qty > current_stock(item_id)`; if the
item is already in the cart bump the first matching line, otherwise
append a new line holding a price snapshot. -/
def add_to_cart (db : DB) (cart : List CartLine) (admin_id item_id : Nat)
    (qty : Int) : Except CartError (List CartLine) :=
  if qty ≤ 0 then .error .invalidQuantity
  else
    match findItem db item_id admin_id with
    | none => .error .itemNotFound
    | some item =>
      let stock := current_stock db item_id
      if stock < qty then .error (.onlyInStock stock)
      else if cart.any (fun c => c.item_id == item_id) then
        .ok (bumpQty cart item_id qty)
      else
        .ok (cart ++ [{ item_id := item_id, sku := item.sku,
                        name := item.name, unit_price := item.unit_price,
                        qty := qty }])

/-- `remove_from_cart` (app.py lines 526-538):
`cart = [c for c in cart if c["item_id"] != item_id]`. -/
def remove_from_cart (cart : List CartLine) (item_id : Nat) :
    List CartLine :=
  cart.filter (fun c => c.item_id != item_id)

/-- Flash-message outcomes of `add_stock` (app.py lines 225-270). -/
inductive StockError
  | itemNotFound
  | notPositive
  | cannotReduce (requested available : Int)
deriving Repr, DecidableEq

/-- `add_stock` (app.py lines 225-270), the manual stock adjustment:
verify ownership, require a positive quantity, and for `op == "sub"`
pre-check `qty_requested > current_val` before appending the single
signed ledger row (`-abs(qty)` for a reduction, `abs(qty)` otherwise). -/
def add_stock (db : DB) (admin_id item_id : Nat) (qty_requested : Int)
    (reason : String) (op : String) : Except StockError DB :=
  match findItem db item_id admin_id with
  | none => .error .itemNotFound
  | some _ =>
    if qty_requested ≤ 0 then .error .notPositive
    else if op = "sub" then
      let current_val := current_stock db item_id
      if current_val < qty_requested then
        .error (.cannotReduce qty_requested current_val)
      else
        .ok { db with stock := db.stock ++
                [{ item_id := item_id, delta_quantity := -|qty_requested|,
                   reason := reason }] }
    else
      .ok { db with stock := db.stock ++
              [{ item_id := item_id, delta_quantity := |qty_requested|,
                 reason := reason }] }

/-- Python `str.strip()` / SQL `TRIM`: drop leading and trailing
whitespace.  (Written over the character list so the kernel can evaluate
it on concrete inputs.) -/
def stripChars (l : List Char) : List Char :=
  ((l.dropWhile Char.isWhitespace).reverse.dropWhile Char.isWhitespace).reverse

/-- Python `str.strip()` on a string. -/
def strip (s : String) : String := String.mk (stripChars s.data)

/-- Python `str.lower()` / SQL `LOWER`. -/
def lowerStr (s : String) : String := String.mk (s.data.map Char.toLower)

/-- The SKU normalization used for the per-admin uniqueness check in
`inventory_new`: `lower(trim(sku))`. -/
def normSku (s : String) : String := lowerStr (strip s)

/-- Outcomes of `inventory_new` (`create_item` in the spec). -/
inductive CreateItemError
  | missingFields
  | duplicateSKU
deriving Repr, DecidableEq

/-- `inventory_new` (app.py lines 173-223), POST branch: strip the form
fields, require SKU and name, then reject with "ProductCode must be
unique" when some row of this admin satisfies
`LOWER(TRIM(sku)) = lower(sku.strip().strip())`; otherwise insert the
item (storing the once-stripped SKU).  `new_id` models the
autoincrement id assigned by the insert. -/
def inventory_new (db : DB) (admin_id : Nat) (sku0 name0 description0 : String)
    (unit_price : ℚ) (new_id : Nat) : Except CreateItemError DB :=
  let sku := strip sku0
  let name := strip name0
  let description := strip description0
  if sku = "" || name = "" then .error .missingFields
  else
    let sku_norm := lowerStr (strip sku)
    if db.items.any (fun it => it.admin_id == admin_id && normSku it.sku == sku_norm)
    then .error .duplicateSKU
    else .ok { db with items := db.items ++
                 [{ id := new_id, admin_id := admin_id, sku := sku,
                    name := name, description := description,
                    unit_price := unit_price }] }

/-- Python `round(x, 2)`: two-decimal rounding, modelled on ℚ as
`⌊x·100 + 1/2⌋ / 100`.  (Python rounds float ties to even; no claim
depends on the tie direction, only on the same function being used at
every site, as in the source.) -/
def round2 (x : ℚ) : ℚ := ((⌊x * 100 + 1 / 2⌋ : ℤ) : ℚ) / 100

/-- The decimal digits of `n`, most significant first, left-padded with
zeros to width `w` — the digit string of Python `f"{n:0wd}"`. -/
def padDigits (w n : Nat) : List Nat :=
  let ds := (Nat.digits 10 n).reverse
  List.replicate (w - ds.length) 0 ++ ds

/-- The invoice number assigned at checkout,
`f"INV-{int(invoice_id):06d}"` (app.py lines 357/373/388; `init_db` in
db.py backfills the same format `'INV-' || printf('%06d', id)`). -/
def invoiceNumber (id : Nat) : String :=
  String.mk (['I', 'N', 'V', '-'] ++ (padDigits 6 id).map Nat.digitChar)

/-- `re.fullmatch(r"\d{8}", mobile)`: exactly eight digits. -/
def isValidMobile (m : String) : Bool :=
  m.data.length == 8 && m.data.all Char.isDigit

/-- Caller-visible checkout rejections (the flash messages of the POST
branch of `checkout`, app.py lines 273-434). -/
inductive CheckoutError
  | mobileRequired
  | invalidMobile
  | emptyCart
  | insufficientStock (name : String) (available : Int)
  | txFailed
deriving Repr, DecidableEq

/-- The first cart line whose quantity exceeds the current stock — the
line at which the validation loop (app.py lines 302-311) flashes
"Not enough stock". -/
def firstInsufficient (db : DB) (cart : List CartLine) : Option CartLine :=
  cart.find? (fun c => decide (current_stock db c.item_id < c.qty))

/-- The validation phase of `checkout` (app.py lines 282-311), in source
order: missing mobile, malformed mobile, empty cart, insufficient
stock.  Returns the first rejection, if any; no validation failure
touches the database. -/
def checkoutValidate (db : DB) (cart : List CartLine) (mobile : String) :
    Option CheckoutError :=
  if strip mobile = "" then some .mobileRequired
  else if isValidMobile (strip mobile) = false then some .invalidMobile
  else if cart = [] then some .emptyCart
  else
    match firstInsufficient db cart with
    | some c => some (.insufficientStock c.name (current_stock db c.item_id))
    | none => none

/-- `SELECT * FROM users WHERE mobile=%s`, inserting
`(mobile, name or None)` first when absent (app.py lines 313-319).
Returns the updated working state and the resolved user id. -/
def findOrCreateUser (db : DB) (mobile name : String) : DB × Nat :=
  match db.users.find? (fun u => u.mobile == mobile) with
  | some u => (db, u.id)
  | none =>
      let uid := db.next_user_id
      ({ db with
          users := db.users ++
            [{ id := uid, mobile := mobile,
               name := if name = "" then none else some name }],
          next_user_id := uid + 1 }, uid)

/-- `subtotal = sum(item["unit_price"] * item["qty"] for item in cart)`
(app.py line 322). -/
def cartSubtotal (cart : List CartLine) : ℚ :=
  (cart.map (fun c => c.unit_price * (c.qty : ℚ))).sum

/-- The per-line write loop of `checkout` (app.py lines 397-417): for
each cart line, append an `invoice_items` row (with
`line_total = round(unit_price * qty, 2)`) and a `-qty` stock delta
whose reason references the invoice number. -/
def postLines (db : DB) (invoice_id : Nat) (inv_no : String)
    (cart : List CartLine) : DB :=
  cart.foldl (fun d c =>
    { d with
      invoice_items := d.invoice_items ++
        [{ invoice_id := invoice_id, item_id := c.item_id,
           quantity := c.qty, unit_price := c.unit_price,
           line_total := round2 (c.unit_price * (c.qty : ℚ)) }],
      stock := d.stock ++
        [{ item_id := c.item_id, delta_quantity := -c.qty,
           reason := "Sold - " ++ inv_no }] }) db

/-- Injection points for a persistence failure inside the checkout
transaction: while resolving/creating the customer, while inserting the
invoice header (both before the first `conn.commit()`), while inserting
invoice line `i` and its stock delta, or at the final commit.  `checkout`
raising at such a point runs the `except` handler: `conn.rollback()`
discards the writes not yet committed and the generic failure message is
flashed. -/
inductive FailPoint
  | createUser
  | insertInvoice
  | insertLine (i : Nat)
  | finalCommit
deriving Repr, DecidableEq

/-- The transaction phase of `checkout` (app.py lines 313-434), as run
against Postgres with the serial sequence available (`conn.driver ==
"pg"`, the only driver `src/inventory_app/db.py` provides):

1. find-or-create the customer;
2. compute `subtotal`, `tax = round(subtotal*tax_rate, 2)`,
   `total = round(subtotal+tax, 2)`;
3. reserve `invoice_id = nextval(seq)` and set
   `invoice_number = f"INV-{invoice_id:06d}"`;
4. insert the invoice header and `conn.commit()` — the header (and any
   new customer row) become durable here, before any line is written;
5. on a fresh connection, insert one `invoice_items` row and one
   negative stock delta per cart line;
6. final `conn.commit()`.

The durable (committed) state is threaded explicitly: a failure injected
before the first commit rolls the database back to `db`; a failure
injected at line `i` (`i <` number of cart lines) or at the final commit
rolls back to the state committed in step 4.  Returns the flashed
outcome (invoice id on success) and the durable database.

`headerInvoice` is the invoice-header row inserted in step 4: the id
reserved from the sequence, the `INV-`-formatted number, the resolved
user id and the computed totals. -/
def headerInvoice (db : DB) (cart : List CartLine) (admin_id : Nat)
    (mobile name : String) (tax_rate : ℚ) (payment_mode : String) : Invoice :=
  let wu := findOrCreateUser db (strip mobile) (strip name)
  let subtotal := cartSubtotal cart
  let tax := round2 (subtotal * tax_rate)
  { id := wu.1.next_invoice_id,
    invoice_number := invoiceNumber wu.1.next_invoice_id,
    user_id := wu.2, subtotal := subtotal, tax := tax,
    total := round2 (subtotal + tax),
    admin_id := admin_id, payment_mode := payment_mode }

/-- The durable state right after the first `conn.commit()` of the
transaction (app.py line 362): the customer row (if newly created) and
the invoice header are committed; no invoice line and no stock delta
has been written yet. -/
def headerCommitted (db : DB) (cart : List CartLine) (admin_id : Nat)
    (mobile name : String) (tax_rate : ℚ) (payment_mode : String) : DB :=
  let wu := findOrCreateUser db (strip mobile) (strip name)
  let inv := headerInvoice db cart admin_id mobile name tax_rate payment_mode
  { wu.1 with
    invoices := wu.1.invoices ++ [inv],
    next_invoice_id := inv.id + 1 }

def checkoutTx (db : DB) (cart : List CartLine) (admin_id : Nat)
    (mobile name : String) (tax_rate : ℚ) (payment_mode : String)
    (failAt : Option FailPoint) : Except CheckoutError Nat × DB :=
  if failAt = some .createUser then (.error .txFailed, db)
  else if failAt = some .insertInvoice then (.error .txFailed, db)
  else
    let invoice_id := (findOrCreateUser db (strip mobile) (strip name)).1.next_invoice_id
    let inv_no := invoiceNumber invoice_id
    let committed := headerCommitted db cart admin_id mobile name tax_rate payment_mode
    match failAt with
    | some (.insertLine i) =>
        if i < cart.length then (.error .txFailed, committed)
        else (.ok invoice_id, postLines committed invoice_id inv_no cart)
    | some .finalCommit => (.error .txFailed, committed)
    | _ => (.ok invoice_id, postLines committed invoice_id inv_no cart)

/-- The POST branch of `checkout` (app.py lines 273-434): run the
validations against the committed state, then the transaction.  A
validation rejection leaves the database untouched. -/
def checkout (db : DB) (cart : List CartLine) (admin_id : Nat)
    (mobile name : String) (tax_rate : ℚ) (payment_mode : String)
    (failAt : Option FailPoint) : Except CheckoutError Nat × DB :=
  match checkoutValidate db cart mobile with
  | some e => (.error e, db)
  | none => checkoutTx db cart admin_id mobile name tax_rate payment_mode failAt

/-- Decoder of `Nat.digitChar` on decimal digits (used to invert the
invoice-number formatting). -/
def undigit (c : Char) : Nat := c.toNat - 48

/-- The `invoice_items` row written for cart line `c` of invoice
`invoice_id` (the loop body of app.py lines 397-411). -/
def lineRow (invoice_id : Nat) (c : CartLine) : InvoiceItem :=
  { invoice_id := invoice_id, item_id := c.item_id, quantity := c.qty,
    unit_price := c.unit_price,
    line_total := round2 (c.unit_price * (c.qty : ℚ)) }

/-- The `inventory_stock` row written for cart line `c` of the invoice
numbered `inv_no` (the loop body of app.py lines 413-417). -/
def deltaRow (inv_no : String) (c : CartLine) : StockRow :=
  { item_id := c.item_id, delta_quantity := -c.qty,
    reason := "Sold - " ++ inv_no }

/-- Referential sanity of the autoincrement counter: every persisted
invoice id and every invoice-line foreign key is below
`next_invoice_id`.  Holds of the empty schema and is preserved by every
operation; the checkout theorems assume it so that the freshly reserved
id cannot collide with existing rows. -/
def dbWF (db : DB) : Bool :=
  db.invoices.all (fun inv => decide (inv.id < db.next_invoice_id)) &&
  db.invoice_items.all (fun l => decide (l.invoice_id < db.next_invoice_id))

/-- Invoice-number discipline: every persisted invoice carries the
number derived from its id, ids are below the sequence counter, and ids
are pairwise distinct. -/
def invNumWF (db : DB) : Bool :=
  db.invoices.all (fun inv =>
    inv.invoice_number == invoiceNumber inv.id &&
    decide (inv.id < db.next_invoice_id)) &&
  decide (db.invoices.map (fun inv => inv.id)).Nodup

/-- The invoice-totals invariant of the spec: for every persisted
invoice, `total == round(subtotal + tax, 2)` and `subtotal` equals the
sum of `unit_price * quantity` over its persisted lines. -/
def totalsWF (db : DB) : Bool :=
  db.invoices.all (fun inv =>
    inv.total == round2 (inv.subtotal + inv.tax) &&
    inv.subtotal ==
      ((db.invoice_items.filter (fun l => l.invoice_id == inv.id)).map
        (fun l => l.unit_price * (l.quantity : ℚ))).sum)

/-- The part of the invoice-totals invariant that survives every
checkout path, success or failure: `total == round(subtotal + tax, 2)`
for every persisted invoice (the header's total is computed from its
own subtotal and tax before the insert, so even a header stranded by a
mid-transaction failure satisfies it). -/
def headerTotalsWF (db : DB) : Bool :=
  db.invoices.all (fun inv => inv.total == round2 (inv.subtotal + inv.tax))

/-- Test fixture: one admin (id 1) owning one item with ten units in
stock, no customers and no invoices yet. -/
def sampleDB : DB :=
  { items := [{ id := 1, admin_id := 1, sku := "SKU1", name := "Widget",
                description := "", unit_price := 5 }],
    stock := [{ item_id := 1, delta_quantity := 10, reason := "init" }],
    users := [], invoices := [], invoice_items := [],
    next_user_id := 1, next_invoice_id := 1 }

/-- Test fixture: a cart buying two units of `sampleDB`'s item. -/
def sampleCart : List CartLine :=
  [{ item_id := 1, sku := "SKU1", name := "Widget", unit_price := 5, qty := 2 }]

/-- Test fixture: item "Y" with only two units in stock. -/
def lowStockDB : DB :=
  { items := [{ id := 1, admin_id := 1, sku := "SKU-Y", name := "Y",
                description := "", unit_price := 4 }],
    stock := [{ item_id := 1, delta_quantity := 2, reason := "init" }],
    users := [], invoices := [], invoice_items := [],
    next_user_id := 1, next_invoice_id := 1 }

/-- Test fixture: a cart asking for three units of item "Y". -/
def lowStockCart : List CartLine :=
  [{ item_id := 1, sku := "SKU-Y", name := "Y", unit_price := 4, qty := 3 }]

/-- Test fixture: admin 1 already owns an item with SKU "ABC-1". -/
def catalogDB : DB :=
  { items := [{ id := 1, admin_id := 1, sku := "ABC-1", name := "Thing",
                description := "", unit_price := 3 }],
    stock := [], users := [], invoices := [], invoice_items := [],
    next_user_id := 1, next_invoice_id := 1 }

/-- Test fixture: an item with three units in stock, used to show that
two cart additions can jointly exceed the stock. -/
def overstockDB : DB :=
  { items := [{ id := 1, admin_id := 1, sku := "S", name := "Gadget",
                description := "", unit_price := 2 }],
    stock := [{ item_id := 1, delta_quantity := 3, reason := "init" }],
    users := [], invoices := [], invoice_items := [],
    next_user_id := 1, next_invoice_id := 1 }

/-! ### Helper lemmas: strings -/

theorem dropWhile_head?_false {α : Type} {p : α → Bool} :
    ∀ (l : List α) {a : α}, (l.dropWhile p).head? = some a → p a = false := by
  intro l
  induction l with
  | nil => intro a h; simp [List.dropWhile] at h
  | cons b t ih =>
    intro a h
    rw [List.dropWhile_cons] at h
    by_cases hb : p b
    · rw [if_pos hb] at h; exact ih h
    · rw [if_neg hb] at h
      simp only [List.head?_cons, Option.some.injEq] at h
      subst h
      simpa using hb

theorem dropWhile_eq_self_of_head? {α : Type} {p : α → Bool} {l : List α}
    (h : ∀ a, l.head? = some a → p a = false) : l.dropWhile p = l := by
  cases l with
  | nil => rfl
  | cons b t => rw [List.dropWhile_cons, h b rfl]; simp

theorem dropWhile_idem {α : Type} {p : α → Bool} {l : List α} :
    (l.dropWhile p).dropWhile p = l.dropWhile p :=
  dropWhile_eq_self_of_head? (fun _ ha => dropWhile_head?_false l ha)

theorem stripChars_idem (l : List Char) : stripChars (stripChars l) = stripChars l := by
  unfold stripChars
  have h1 : (((((l.dropWhile Char.isWhitespace).reverse.dropWhile
      Char.isWhitespace).reverse).dropWhile Char.isWhitespace)) =
      ((l.dropWhile Char.isWhitespace).reverse.dropWhile Char.isWhitespace).reverse := by
    apply dropWhile_eq_self_of_head?
    intro a ha
    rw [List.head?_reverse] at ha
    obtain ⟨t, ht⟩ := List.dropWhile_suffix
      (l := (l.dropWhile Char.isWhitespace).reverse) (p := Char.isWhitespace)
    have hCne : (l.dropWhile Char.isWhitespace).reverse.dropWhile Char.isWhitespace ≠ [] := by
      intro h0; rw [h0] at ha; simp at ha
    have h2 : ((l.dropWhile Char.isWhitespace).reverse).getLast? = some a := by
      rw [← ht, List.getLast?_append_of_ne_nil _ hCne]; exact ha
    rw [List.getLast?_reverse] at h2
    exact dropWhile_head?_false l h2
  rw [h1, List.reverse_reverse, dropWhile_idem]

theorem strip_idem (s : String) : strip (strip s) = strip s := by
  show String.mk (stripChars (stripChars s.data)) = String.mk (stripChars s.data)
  exact congrArg String.mk (stripChars_idem s.data)

theorem normSku_strip (s : String) : normSku (strip s) = normSku s := by
  unfold normSku
  rw [strip_idem]

/-! ### Helper lemmas: zero-padded decimal invoice numbers -/

theorem ofDigits_replicate_zero (k : ℕ) :
    Nat.ofDigits 10 (List.replicate k 0) = 0 := by
  induction k with
  | zero => simp
  | succ n ih => simp [List.replicate_succ, Nat.ofDigits_cons, ih]

theorem padDigits_recover (n : ℕ) :
    Nat.ofDigits 10 ((padDigits 6 n).reverse) = n := by
  unfold padDigits
  rw [List.reverse_append, List.reverse_replicate, List.reverse_reverse,
    Nat.ofDigits_append, Nat.ofDigits_digits, ofDigits_replicate_zero]
  simp

theorem padDigits_lt_ten (n : ℕ) : ∀ d ∈ padDigits 6 n, d < 10 := by
  intro d hd
  unfold padDigits at hd
  rcases List.mem_append.mp hd with h | h
  · have := List.eq_of_mem_replicate h; omega
  · exact Nat.digits_lt_base (by norm_num) (List.mem_reverse.mp h)

theorem undigit_digitChar_fin : ∀ d : Fin 10, undigit (Nat.digitChar d.val) = d.val := by
  decide

theorem map_digitChar_injective {l1 l2 : List ℕ} (h1 : ∀ d ∈ l1, d < 10)
    (h2 : ∀ d ∈ l2, d < 10) (h : l1.map Nat.digitChar = l2.map Nat.digitChar) :
    l1 = l2 := by
  have e1 : ∀ (l : List ℕ), (∀ d ∈ l, d < 10) →
      (l.map Nat.digitChar).map undigit = l := by
    intro l hl
    rw [List.map_map]
    have : ∀ a ∈ l, (undigit ∘ Nat.digitChar) a = id a :=
      fun a ha => undigit_digitChar_fin ⟨a, hl a ha⟩
    rw [List.map_congr_left this, List.map_id]
  calc l1 = (l1.map Nat.digitChar).map undigit := (e1 l1 h1).symm
    _ = (l2.map Nat.digitChar).map undigit := by rw [h]
    _ = l2 := e1 l2 h2

theorem invoiceNumber_inj {a b : ℕ} (h : invoiceNumber a = invoiceNumber b) :
    a = b := by
  unfold invoiceNumber at h
  have hd : ['I', 'N', 'V', '-'] ++ (padDigits 6 a).map Nat.digitChar =
      ['I', 'N', 'V', '-'] ++ (padDigits 6 b).map Nat.digitChar :=
    congrArg String.data h
  have hl := List.append_cancel_left hd
  have hp := map_digitChar_injective (padDigits_lt_ten a) (padDigits_lt_ten b) hl
  have hrec := congrArg (fun l => Nat.ofDigits 10 l.reverse) hp
  simpa [padDigits_recover] using hrec

/-! ### Helper lemmas: component behaviour of the checkout writes -/

theorem findOrCreateUser_items (db : DB) (m n : String) :
    (findOrCreateUser db m n).1.items = db.items := by
  unfold findOrCreateUser
  cases db.users.find? (fun u => u.mobile == m) <;> rfl

theorem findOrCreateUser_stock (db : DB) (m n : String) :
    (findOrCreateUser db m n).1.stock = db.stock := by
  unfold findOrCreateUser
  cases db.users.find? (fun u => u.mobile == m) <;> rfl

theorem findOrCreateUser_invoices (db : DB) (m n : String) :
    (findOrCreateUser db m n).1.invoices = db.invoices := by
  unfold findOrCreateUser
  cases db.users.find? (fun u => u.mobile == m) <;> rfl

theorem findOrCreateUser_invoice_items (db : DB) (m n : String) :
    (findOrCreateUser db m n).1.invoice_items = db.invoice_items := by
  unfold findOrCreateUser
  cases db.users.find? (fun u => u.mobile == m) <;> rfl

theorem findOrCreateUser_next_invoice_id (db : DB) (m n : String) :
    (findOrCreateUser db m n).1.next_invoice_id = db.next_invoice_id := by
  unfold findOrCreateUser
  cases db.users.find? (fun u => u.mobile == m) <;> rfl

theorem postLines_invoice_items :
    ∀ (cart : List CartLine) (db : DB) (invoice_id : Nat) (inv_no : String),
    (postLines db invoice_id inv_no cart).invoice_items =
      db.invoice_items ++ cart.map (lineRow invoice_id) := by
  intro cart
  induction cart with
  | nil => intro db invoice_id inv_no; simp [postLines]
  | cons c cs ih =>
    intro db invoice_id inv_no
    show (postLines _ invoice_id inv_no cs).invoice_items = _
    rw [ih]
    simp [lineRow, List.append_assoc]

theorem postLines_stock :
    ∀ (cart : List CartLine) (db : DB) (invoice_id : Nat) (inv_no : String),
    (postLines db invoice_id inv_no cart).stock =
      db.stock ++ cart.map (deltaRow inv_no) := by
  intro cart
  induction cart with
  | nil => intro db invoice_id inv_no; simp [postLines]
  | cons c cs ih =>
    intro db invoice_id inv_no
    show (postLines _ invoice_id inv_no cs).stock = _
    rw [ih]
    simp [deltaRow, List.append_assoc]

theorem postLines_invoices :
    ∀ (cart : List CartLine) (db : DB) (invoice_id : Nat) (inv_no : String),
    (postLines db invoice_id inv_no cart).invoices = db.invoices := by
  intro cart
  induction cart with
  | nil => intro db invoice_id inv_no; simp [postLines]
  | cons c cs ih =>
    intro db invoice_id inv_no
    show (postLines _ invoice_id inv_no cs).invoices = _
    rw [ih]

theorem postLines_next_invoice_id :
    ∀ (cart : List CartLine) (db : DB) (invoice_id : Nat) (inv_no : String),
    (postLines db invoice_id inv_no cart).next_invoice_id = db.next_invoice_id := by
  intro cart
  induction cart with
  | nil => intro db invoice_id inv_no; simp [postLines]
  | cons c cs ih =>
    intro db invoice_id inv_no
    show (postLines _ invoice_id inv_no cs).next_invoice_id = _
    rw [ih]

theorem current_stock_append_one (db : DB) (r : StockRow) (i : Nat) :
    current_stock { db with stock := db.stock ++ [r] } i =
      current_stock db i + (if r.item_id = i then r.delta_quantity else 0) := by
  simp only [current_stock, List.filter_append]
  by_cases h : r.item_id = i
  · simp [h]
  · simp [h]

theorem bumpQty_map_item_id :
    ∀ (cart : List CartLine) (item_id : Nat) (qty : Int),
    (bumpQty cart item_id qty).map (fun c => c.item_id) =
      cart.map (fun c => c.item_id) := by
  intro cart
  induction cart with
  | nil => intro item_id qty; rfl
  | cons c cs ih =>
    intro item_id qty
    by_cases h : c.item_id == item_id
    · simp [bumpQty, h]
    · simp [bumpQty, h, ih]

theorem headerInvoice_id (db : DB) (cart : List CartLine) (admin_id : Nat)
    (mobile name : String) (tax_rate : ℚ) (payment_mode : String) :
    (headerInvoice db cart admin_id mobile name tax_rate payment_mode).id =
      db.next_invoice_id := by
  simp [headerInvoice, findOrCreateUser_next_invoice_id]

theorem headerCommitted_invoices (db : DB) (cart : List CartLine) (admin_id : Nat)
    (mobile name : String) (tax_rate : ℚ) (payment_mode : String) :
    (headerCommitted db cart admin_id mobile name tax_rate payment_mode).invoices =
      db.invoices ++ [headerInvoice db cart admin_id mobile name tax_rate payment_mode] := by
  simp [headerCommitted, findOrCreateUser_invoices]

theorem headerCommitted_invoice_items (db : DB) (cart : List CartLine) (admin_id : Nat)
    (mobile name : String) (tax_rate : ℚ) (payment_mode : String) :
    (headerCommitted db cart admin_id mobile name tax_rate payment_mode).invoice_items =
      db.invoice_items := by
  simp [headerCommitted, findOrCreateUser_invoice_items]

theorem headerCommitted_stock (db : DB) (cart : List CartLine) (admin_id : Nat)
    (mobile name : String) (tax_rate : ℚ) (payment_mode : String) :
    (headerCommitted db cart admin_id mobile name tax_rate payment_mode).stock =
      db.stock := by
  simp [headerCommitted, findOrCreateUser_stock]

theorem headerCommitted_next_invoice_id (db : DB) (cart : List CartLine) (admin_id : Nat)
    (mobile name : String) (tax_rate : ℚ) (payment_mode : String) :
    (headerCommitted db cart admin_id mobile name tax_rate payment_mode).next_invoice_id =
      db.next_invoice_id + 1 := by
  simp [headerCommitted, headerInvoice_id]

theorem checkoutTx_none (db : DB) (cart : List CartLine) (admin_id : Nat)
    (mobile name : String) (tax_rate : ℚ) (payment_mode : String) :
    checkoutTx db cart admin_id mobile name tax_rate payment_mode none =
      (.ok db.next_invoice_id,
       postLines (headerCommitted db cart admin_id mobile name tax_rate payment_mode)
         db.next_invoice_id (invoiceNumber db.next_invoice_id) cart) := by
  simp [checkoutTx, findOrCreateUser_next_invoice_id]

theorem checkoutTx_createUser (db : DB) (cart : List CartLine) (admin_id : Nat)
    (mobile name : String) (tax_rate : ℚ) (payment_mode : String) :
    checkoutTx db cart admin_id mobile name tax_rate payment_mode
        (some .createUser) = (.error .txFailed, db) := by
  simp [checkoutTx]

theorem checkoutTx_insertInvoice (db : DB) (cart : List CartLine) (admin_id : Nat)
    (mobile name : String) (tax_rate : ℚ) (payment_mode : String) :
    checkoutTx db cart admin_id mobile name tax_rate payment_mode
        (some .insertInvoice) = (.error .txFailed, db) := by
  simp [checkoutTx]

theorem checkoutTx_insertLine (db : DB) (cart : List CartLine) (admin_id : Nat)
    (mobile name : String) (tax_rate : ℚ) (payment_mode : String) (i : Nat)
    (hi : i < cart.length) :
    checkoutTx db cart admin_id mobile name tax_rate payment_mode
        (some (.insertLine i)) =
      (.error .txFailed,
       headerCommitted db cart admin_id mobile name tax_rate payment_mode) := by
  simp [checkoutTx, hi]

theorem checkoutTx_insertLine_high (db : DB) (cart : List CartLine) (admin_id : Nat)
    (mobile name : String) (tax_rate : ℚ) (payment_mode : String) (i : Nat)
    (hi : ¬ i < cart.length) :
    checkoutTx db cart admin_id mobile name tax_rate payment_mode
        (some (.insertLine i)) =
      (.ok db.next_invoice_id,
       postLines (headerCommitted db cart admin_id mobile name tax_rate payment_mode)
         db.next_invoice_id (invoiceNumber db.next_invoice_id) cart) := by
  simp [checkoutTx, hi, findOrCreateUser_next_invoice_id]

theorem checkoutTx_finalCommit (db : DB) (cart : List CartLine) (admin_id : Nat)
    (mobile name : String) (tax_rate : ℚ) (payment_mode : String) :
    checkoutTx db cart admin_id mobile name tax_rate payment_mode
        (some .finalCommit) =
      (.error .txFailed,
       headerCommitted db cart admin_id mobile name tax_rate payment_mode) := by
  simp [checkoutTx]

/-! ### Claim theorems -/

/-- C3: for every item and every state of the stock ledger,
`current_stock(item_id)` equals the running sum of the signed
`delta_quantity` values of the ledger rows for that item (stated as the
left fold over the whole ledger that skips other items), and equals 0
when the ledger holds no row for the item.  This holds of every state,
hence of every reachable one. -/
theorem current_stock_is_ledger_sum (db : DB) (item_id : Nat) :
    current_stock db item_id =
      db.stock.foldl
        (fun acc r => if r.item_id = item_id then acc + r.delta_quantity else acc) 0 ∧
    ((∀ r ∈ db.stock, r.item_id ≠ item_id) → current_stock db item_id = 0) := by
  constructor
  · have key : ∀ (l : List StockRow) (acc : Int),
        l.foldl (fun acc r => if r.item_id = item_id then acc + r.delta_quantity else acc) acc =
        acc + ((l.filter (fun r => r.item_id == item_id)).map
          (fun r => r.delta_quantity)).sum := by
      intro l
      induction l with
      | nil => intro acc; simp
      | cons r rs ih =>
        intro acc
        by_cases h : r.item_id = item_id
        · simp [List.filter_cons, h, ih, add_assoc]
        · simp [List.filter_cons, h, ih]
    rw [key db.stock 0, current_stock]
    simp
  · intro h
    unfold current_stock
    have hnil : db.stock.filter (fun r => r.item_id == item_id) = [] := by
      rw [List.filter_eq_nil_iff]
      intro r hr
      simpa using h r hr
    rw [hnil]
    simp

/-- C3 witness: in the sample database no ledger row mentions item 2, so
its current stock is 0. -/
theorem current_stock_is_ledger_sum_witness : current_stock sampleDB 2 = 0 :=
  (current_stock_is_ledger_sum sampleDB 2).2 (by decide)

/-- C6 counterexample: a checkout invocation with an empty cart and the
malformed mobile "12345" is rejected with InvalidMobile, not EmptyCart —
the code validates the mobile (app.py lines 282-289) before it checks
the cart (lines 294-297), the opposite of the order the claim asserts. -/
theorem empty_cart_invalid_mobile_cex :
    checkout lowStockDB [] 1 "12345" "" 0 "Cash" none =
      (.error .invalidMobile, lowStockDB) ∧
    CheckoutError.invalidMobile ≠ CheckoutError.emptyCart :=
  ⟨rfl, by decide⟩

/-- C6 amended: a checkout invocation with an empty cart is rejected
with EmptyCart and has no side effects, provided the mobile passes the
preceding validation (mobile validation runs first; an empty cart with a
missing or malformed mobile is rejected with the mobile error instead). -/
theorem checkout_empty_cart_rejected (db : DB) (admin_id : Nat)
    (mobile name : String) (tax_rate : ℚ) (payment_mode : String)
    (failAt : Option FailPoint)
    (h1 : strip mobile ≠ "") (h2 : isValidMobile (strip mobile) = true) :
    checkout db [] admin_id mobile name tax_rate payment_mode failAt =
      (.error .emptyCart, db) := by
  simp [checkout, checkoutValidate, h1, h2]

/-- C6 witness: an empty-cart checkout with the valid mobile "12345678"
is rejected with EmptyCart and leaves the database unchanged. -/
theorem checkout_empty_cart_rejected_witness :
    checkout lowStockDB [] 1 "12345678" "" 0 "Cash" none =
      (.error .emptyCart, lowStockDB) :=
  checkout_empty_cart_rejected lowStockDB 1 "12345678" "" 0 "Cash" none
    (by decide) (by decide)

/-- C2 counterexample: a checkout invocation with a non-empty cart whose
single line asks for 3 units while only 2 are in stock, but whose mobile
is the malformed "12345", is rejected with InvalidMobile — not with
InsufficientStock as the claim states for every such invocation. -/
theorem insufficient_invalid_mobile_cex :
    checkout lowStockDB lowStockCart 1 "12345" "" 0 "Cash" none =
      (.error .invalidMobile, lowStockDB) ∧
    lowStockCart ≠ [] ∧
    (∃ c ∈ lowStockCart, current_stock lowStockDB c.item_id < c.qty) := by
  refine ⟨rfl, by decide,
    ⟨{ item_id := 1, sku := "SKU-Y", name := "Y", unit_price := 4, qty := 3 },
      ?_, by decide⟩⟩
  simp [lowStockCart]

/-- C2 amended: for every checkout invocation whose (stripped) mobile
passes the 8-digit validation, with a non-empty cart in which some line
asks for more than the current stock of its item, the whole operation is
rejected with InsufficientStock naming the offending item and its
available quantity, and the database — stock ledger, invoices, invoice
lines and customer directory — is left completely unchanged. -/
theorem checkout_insufficient_rejected (db : DB) (cart : List CartLine)
    (admin_id : Nat) (mobile name : String) (tax_rate : ℚ)
    (payment_mode : String) (failAt : Option FailPoint)
    (h1 : strip mobile ≠ "") (h2 : isValidMobile (strip mobile) = true)
    (h3 : cart ≠ []) (h4 : ∃ c ∈ cart, current_stock db c.item_id < c.qty) :
    ∃ c ∈ cart, current_stock db c.item_id < c.qty ∧
      checkout db cart admin_id mobile name tax_rate payment_mode failAt =
        (.error (.insufficientStock c.name (current_stock db c.item_id)), db) := by
  have hsome : (firstInsufficient db cart).isSome := by
    unfold firstInsufficient
    rw [List.find?_isSome]
    obtain ⟨c, hc, hlt⟩ := h4
    exact ⟨c, hc, by simpa using hlt⟩
  obtain ⟨c, hc⟩ := Option.isSome_iff_exists.mp hsome
  refine ⟨c, List.mem_of_find?_eq_some hc, ?_, ?_⟩
  · have := List.find?_some hc
    simpa [firstInsufficient] using this
  · simp [checkout, checkoutValidate, h1, h2, h3, hc]

/-- C2 witness: with the valid mobile "12345678", the cart asking for 3
units of item "Y" against a stock of 2 is rejected with
InsufficientStock("Y", 2) and the database is unchanged. -/
theorem checkout_insufficient_rejected_witness :
    ∃ c ∈ lowStockCart, current_stock lowStockDB c.item_id < c.qty ∧
      checkout lowStockDB lowStockCart 1 "12345678" "" 0 "Cash" none =
        (.error (.insufficientStock c.name (current_stock lowStockDB c.item_id)),
         lowStockDB) :=
  checkout_insufficient_rejected lowStockDB lowStockCart 1 "12345678" "" 0 "Cash"
    none (by decide) (by decide) (by decide)
    ⟨{ item_id := 1, sku := "SKU-Y", name := "Y", unit_price := 4, qty := 3 },
       by simp [lowStockCart], by decide⟩

/-- C8: a manual stock reduction (`add_stock` with `op = "sub"`) on an
item owned by the admin, with a positive requested quantity: if the
requested reduction exceeds the current stock the operation is rejected
with a user-facing error and no ledger row is appended (the database is
returned unchanged inside the error-free result); otherwise exactly one
negative delta of the requested magnitude is appended, the new stock sum
is the old one minus the reduction, and it is never negative. -/
theorem manual_stock_reduction_safe (db : DB) (admin_id item_id : Nat)
    (q : Int) (reason : String)
    (hfound : (findItem db item_id admin_id).isSome = true) (hq : 0 < q) :
    (current_stock db item_id < q →
      add_stock db admin_id item_id q reason "sub" =
        .error (.cannotReduce q (current_stock db item_id))) ∧
    (q ≤ current_stock db item_id →
      add_stock db admin_id item_id q reason "sub" =
        .ok { db with stock := db.stock ++
                [{ item_id := item_id, delta_quantity := -q, reason := reason }] } ∧
      current_stock { db with stock := db.stock ++
          [{ item_id := item_id, delta_quantity := -q, reason := reason }] } item_id =
        current_stock db item_id - q ∧
      0 ≤ current_stock { db with stock := db.stock ++
          [{ item_id := item_id, delta_quantity := -q, reason := reason }] } item_id) := by
  obtain ⟨it, hit⟩ := Option.isSome_iff_exists.mp hfound
  have habs : -|q| = -q := by rw [abs_of_pos hq]
  have hnewsum : current_stock { db with stock := db.stock ++
      [{ item_id := item_id, delta_quantity := -q, reason := reason }] } item_id =
      current_stock db item_id - q := by
    rw [current_stock_append_one]
    simp
    ring
  constructor
  · intro hlt
    unfold add_stock
    rw [hit, if_neg (by omega), if_pos rfl, if_pos hlt]
  · intro hle
    refine ⟨?_, hnewsum, ?_⟩
    · unfold add_stock
      rw [hit, if_neg (by omega), if_pos rfl, if_neg (by omega), habs]
    · rw [hnewsum]; omega

/-- C8 witness: reducing the sample item (stock 10) by 4 appends the
single delta -4 and leaves a non-negative stock of 6. -/
theorem manual_stock_reduction_safe_witness :
    add_stock sampleDB 1 1 4 "damaged" "sub" =
      .ok { sampleDB with stock := sampleDB.stock ++
              [{ item_id := 1, delta_quantity := -4, reason := "damaged" }] } ∧
    current_stock { sampleDB with stock := sampleDB.stock ++
        [{ item_id := 1, delta_quantity := -4, reason := "damaged" }] } 1 =
      current_stock sampleDB 1 - 4 ∧
    0 ≤ current_stock { sampleDB with stock := sampleDB.stock ++
        [{ item_id := 1, delta_quantity := -4, reason := "damaged" }] } 1 :=
  (manual_stock_reduction_safe sampleDB 1 1 4 "damaged" (by decide) (by decide)).2
    (by decide)

/-- Inversion of a successful `add_to_cart`: either the item was already
in the cart and the result is the bumped cart, or it was absent and a
new line with its id was appended. -/
theorem add_to_cart_ok_cases (db : DB) (cart : List CartLine)
    (admin_id item_id : Nat) (qty : Int) (cart' : List CartLine)
    (h : add_to_cart db cart admin_id item_id qty = .ok cart') :
    (cart' = bumpQty cart item_id qty ∧ ∃ c ∈ cart, c.item_id = item_id) ∨
    (cart'.map (fun c => c.item_id) =
       cart.map (fun c => c.item_id) ++ [item_id] ∧
     ∀ c ∈ cart, c.item_id ≠ item_id) := by
  by_cases h1 : qty ≤ 0
  · simp [add_to_cart, h1] at h
  · cases hfi : findItem db item_id admin_id with
    | none => simp [add_to_cart, h1, hfi] at h
    | some item =>
      by_cases h2 : current_stock db item_id < qty
      · simp [add_to_cart, h1, hfi, h2] at h
      · by_cases hany : cart.any (fun c => c.item_id == item_id)
        · left
          simp [add_to_cart, h1, hfi, h2, hany] at h
          exact ⟨h.symm, by simpa using hany⟩
        · right
          simp [add_to_cart, h1, hfi, h2, hany] at h
          refine ⟨?_, by simpa using hany⟩
          rw [← h]
          simp

/-- C9: the session cart never holds two lines with the same item id.
`add_to_cart` bumps the quantity of the (unique) existing line when the
item is already present — leaving the list of item ids unchanged — and
appends a new line only when the item is absent, so it preserves
distinctness of the item ids; `remove_from_cart` removes every line
matching the given id, keeps every other line (in their original order,
being a sublist), and also preserves distinctness. -/
theorem cart_item_ids_unique :
    (∀ (db : DB) (cart : List CartLine) (admin_id item_id : Nat) (qty : Int)
       (cart' : List CartLine),
       (cart.map (fun c => c.item_id)).Nodup →
       add_to_cart db cart admin_id item_id qty = .ok cart' →
       (cart'.map (fun c => c.item_id)).Nodup) ∧
    (∀ (db : DB) (cart : List CartLine) (admin_id item_id : Nat) (qty : Int)
       (cart' : List CartLine),
       add_to_cart db cart admin_id item_id qty = .ok cart' →
       ((∃ c ∈ cart, c.item_id = item_id) →
          cart'.map (fun c => c.item_id) = cart.map (fun c => c.item_id)) ∧
       ((∀ c ∈ cart, c.item_id ≠ item_id) →
          cart'.map (fun c => c.item_id) =
            cart.map (fun c => c.item_id) ++ [item_id])) ∧
    (∀ (cart : List CartLine) (item_id : Nat),
       ((cart.map (fun c => c.item_id)).Nodup →
          ((remove_from_cart cart item_id).map (fun c => c.item_id)).Nodup) ∧
       (∀ c ∈ remove_from_cart cart item_id, c.item_id ≠ item_id) ∧
       List.Sublist (remove_from_cart cart item_id) cart ∧
       (∀ c ∈ cart, c.item_id ≠ item_id → c ∈ remove_from_cart cart item_id)) := by
  refine ⟨?_, ?_, ?_⟩
  · intro db cart admin_id item_id qty cart' hnd h
    rcases add_to_cart_ok_cases db cart admin_id item_id qty cart' h with
      ⟨he, _⟩ | ⟨he, hall⟩
    · rw [he, bumpQty_map_item_id]; exact hnd
    · rw [he]
      have hnotin : item_id ∉ cart.map (fun c => c.item_id) := by
        intro hmem
        obtain ⟨c, hc, hcid⟩ := List.mem_map.mp hmem
        exact hall c hc hcid
      simp [List.nodup_append, hnd, hnotin]
  · intro db cart admin_id item_id qty cart' h
    constructor
    · intro hex
      rcases add_to_cart_ok_cases db cart admin_id item_id qty cart' h with
        ⟨he, _⟩ | ⟨_, hall⟩
      · rw [he, bumpQty_map_item_id]
      · obtain ⟨c, hc, hcid⟩ := hex
        exact absurd hcid (hall c hc)
    · intro hall
      rcases add_to_cart_ok_cases db cart admin_id item_id qty cart' h with
        ⟨_, ⟨c, hc, hcid⟩⟩ | ⟨he, _⟩
      · exact absurd hcid (hall c hc)
      · exact he
  · intro cart item_id
    refine ⟨?_, ?_, ?_, ?_⟩
    · intro hnd
      have hsub : List.Sublist
          ((remove_from_cart cart item_id).map (fun c => c.item_id))
          (cart.map (fun c => c.item_id)) :=
        List.Sublist.map _ (List.filter_sublist _)
      exact List.Nodup.sublist hsub hnd
    · intro c hc
      have := (List.mem_filter.mp hc).2
      simpa using this
    · exact List.filter_sublist _
    · intro c hc hne
      exact List.mem_filter.mpr ⟨hc, by simpa using hne⟩

/-- C9 witness: removing item 1 from the sample cart yields a cart whose
item ids are (trivially) still distinct. -/
theorem cart_item_ids_unique_witness :
    ((remove_from_cart sampleCart 1).map (fun c => c.item_id)).Nodup :=
  (cart_item_ids_unique.2.2 sampleCart 1).1 (by decide)

/-- C10: `add_to_cart` validates only the requested increment `qty`
against the current stock, never the accumulated cart quantity: whenever
the item belongs to the admin and `0 < qty ≤ current_stock(item_id)`,
the call succeeds (bumping the existing line or appending a new one)
regardless of the cart's contents; consequently two valid adds of two
units each against a stock of three leave a cart line of four units,
which exceeds the available stock. -/
theorem add_to_cart_ignores_cart_quantity :
    (∀ (db : DB) (cart : List CartLine) (admin_id item_id : Nat) (qty : Int)
       (item : Item),
       0 < qty → findItem db item_id admin_id = some item →
       qty ≤ current_stock db item_id →
       add_to_cart db cart admin_id item_id qty =
         .ok (if cart.any (fun c => c.item_id == item_id) then
                bumpQty cart item_id qty
              else cart ++ [{ item_id := item_id, sku := item.sku,
                              name := item.name, unit_price := item.unit_price,
                              qty := qty }])) ∧
    (∃ cart1 cart2 : List CartLine,
       add_to_cart overstockDB [] 1 1 2 = .ok cart1 ∧
       add_to_cart overstockDB cart1 1 1 2 = .ok cart2 ∧
       ∃ c ∈ cart2, c.item_id = 1 ∧ current_stock overstockDB 1 < c.qty) := by
  constructor
  · intro db cart admin_id item_id qty item hq hfi hle
    have h1 : ¬ qty ≤ 0 := by omega
    have h2 : ¬ current_stock db item_id < qty := by omega
    by_cases hany : cart.any (fun c => c.item_id == item_id) <;>
      simp [add_to_cart, h1, hfi, h2, hany]
  · refine ⟨[{ item_id := 1, sku := "S", name := "Gadget", unit_price := 2,
               qty := 2 }],
            [{ item_id := 1, sku := "S", name := "Gadget", unit_price := 2,
               qty := 4 }], rfl, rfl,
            ⟨{ item_id := 1, sku := "S", name := "Gadget", unit_price := 2,
               qty := 4 }, ?_, rfl, by decide⟩⟩
    simp

/-- C10 witness: with three units in stock and a cart already holding
two units of item 1, a further add of two units succeeds (bumping the
line to four). -/
theorem add_to_cart_ignores_cart_quantity_witness :
    add_to_cart overstockDB
        [{ item_id := 1, sku := "S", name := "Gadget", unit_price := 2,
           qty := 2 }] 1 1 2 =
      .ok (if ([{ item_id := 1, sku := "S", name := "Gadget", unit_price := 2,
                  qty := 2 }] : List CartLine).any (fun c => c.item_id == 1) then
             bumpQty [{ item_id := 1, sku := "S", name := "Gadget",
                        unit_price := 2, qty := 2 }] 1 2
           else [{ item_id := 1, sku := "S", name := "Gadget", unit_price := 2,
                   qty := 2 }] ++
             [{ item_id := 1,
                sku := ({ id := 1, admin_id := 1, sku := "S", name := "Gadget",
                          description := "", unit_price := 2 } : Item).sku,
                name := ({ id := 1, admin_id := 1, sku := "S", name := "Gadget",
                           description := "", unit_price := 2 } : Item).name,
                unit_price := ({ id := 1, admin_id := 1, sku := "S",
                                 name := "Gadget", description := "",
                                 unit_price := 2 } : Item).unit_price,
                qty := 2 }]) :=
  add_to_cart_ignores_cart_quantity.1 overstockDB
    [{ item_id := 1, sku := "S", name := "Gadget", unit_price := 2, qty := 2 }]
    1 1 2
    { id := 1, admin_id := 1, sku := "S", name := "Gadget", description := "",
      unit_price := 2 }
    (by decide) rfl (by decide)

/-- C1 counterexample: a checkout that passes every validation (valid
mobile, non-empty cart, sufficient stock) but hits a persistence failure
while inserting the first invoice line reports the generic transaction
failure, yet the durable state now holds one invoice with no invoice
lines and no new stock deltas — the invoice header was committed by the
earlier `conn.commit()` (app.py line 362), so the rollback cannot undo
it.  This refutes both "no invoice persists on failure" and "never an
invoice without its stock deltas". -/
theorem checkout_midloop_failure_cex :
    (checkout sampleDB sampleCart 1 "12345678" "Bob" 0 "Cash"
        (some (.insertLine 0))).1 = .error .txFailed ∧
    (checkout sampleDB sampleCart 1 "12345678" "Bob" 0 "Cash"
        (some (.insertLine 0))).2.invoices.length = 1 ∧
    (checkout sampleDB sampleCart 1 "12345678" "Bob" 0 "Cash"
        (some (.insertLine 0))).2.invoice_items = [] ∧
    (checkout sampleDB sampleCart 1 "12345678" "Bob" 0 "Cash"
        (some (.insertLine 0))).2.stock = sampleDB.stock :=
  ⟨rfl, rfl, rfl, rfl⟩

/-- C1 amended: the checkout transaction is committed in two phases, not
one.  Validation rejections (and failures before the first commit) leave
the database unchanged; the invoice lines and the stock deltas are
written together and become durable only at the final commit, so no
reachable state holds the lines of a sale without its deltas or vice
versa; but the customer row and the invoice header are committed
separately *before* the lines, so a failure during line insertion or at
the final commit persists an invoice with no invoice lines and no stock
deltas. -/
theorem checkout_commit_anatomy (db : DB) (cart : List CartLine)
    (admin_id : Nat) (mobile name : String) (tax_rate : ℚ)
    (payment_mode : String) (failAt : Option FailPoint)
    (res : Except CheckoutError Nat) (db' : DB)
    (h : checkout db cart admin_id mobile name tax_rate payment_mode failAt =
      (res, db')) :
    (∀ e, res = .error e → e ≠ .txFailed → db' = db) ∧
    (res = .error .txFailed →
      db' = db ∨
      (∃ inv, db'.invoices = db.invoices ++ [inv] ∧
        db'.invoice_items = db.invoice_items ∧ db'.stock = db.stock)) ∧
    (∀ id, res = .ok id →
      (∃ inv, db'.invoices = db.invoices ++ [inv] ∧ inv.id = id) ∧
      db'.invoice_items = db.invoice_items ++ cart.map (lineRow id) ∧
      db'.stock = db.stock ++ cart.map (deltaRow (invoiceNumber id))) := by
  unfold checkout at h
  cases hv : checkoutValidate db cart mobile with
  | some e0 =>
    rw [hv, Prod.mk.injEq] at h
    obtain ⟨h1, h2⟩ := h
    subst h2
    refine ⟨fun e _ _ => rfl, fun _ => Or.inl rfl, fun id hid => ?_⟩
    rw [← h1] at hid
    simp at hid
  | none =>
    rw [hv] at h
    cases failAt with
    | none =>
      rw [checkoutTx_none, Prod.mk.injEq] at h
      obtain ⟨h1, h2⟩ := h
      subst h2
      refine ⟨?_, ?_, ?_⟩
      · intro e he
        rw [← h1] at he
        simp at he
      · intro he
        rw [← h1] at he
        simp at he
      · intro id hid
        rw [← h1] at hid
        injection hid with h3
        subst h3
        refine ⟨⟨headerInvoice db cart admin_id mobile name tax_rate payment_mode,
          ?_, headerInvoice_id db cart admin_id mobile name tax_rate payment_mode⟩,
          ?_, ?_⟩
        · rw [postLines_invoices, headerCommitted_invoices]
        · rw [postLines_invoice_items, headerCommitted_invoice_items]
        · rw [postLines_stock, headerCommitted_stock]
    | some fp =>
      cases fp with
      | createUser =>
        rw [checkoutTx_createUser, Prod.mk.injEq] at h
        obtain ⟨h1, h2⟩ := h
        subst h2
        refine ⟨fun e _ _ => rfl, fun _ => Or.inl rfl, fun id hid => ?_⟩
        rw [← h1] at hid
        simp at hid
      | insertInvoice =>
        rw [checkoutTx_insertInvoice, Prod.mk.injEq] at h
        obtain ⟨h1, h2⟩ := h
        subst h2
        refine ⟨fun e _ _ => rfl, fun _ => Or.inl rfl, fun id hid => ?_⟩
        rw [← h1] at hid
        simp at hid
      | finalCommit =>
        rw [checkoutTx_finalCommit, Prod.mk.injEq] at h
        obtain ⟨h1, h2⟩ := h
        subst h2
        refine ⟨?_, ?_, ?_⟩
        · intro e he hne
          rw [← h1] at he
          injection he with h3
          exact absurd h3.symm hne
        · intro _
          exact Or.inr ⟨headerInvoice db cart admin_id mobile name tax_rate
              payment_mode,
            headerCommitted_invoices db cart admin_id mobile name tax_rate
              payment_mode,
            headerCommitted_invoice_items db cart admin_id mobile name tax_rate
              payment_mode,
            headerCommitted_stock db cart admin_id mobile name tax_rate
              payment_mode⟩
        · intro id hid
          rw [← h1] at hid
          simp at hid
      | insertLine i =>
        by_cases hi : i < cart.length
        · rw [checkoutTx_insertLine db cart admin_id mobile name tax_rate
              payment_mode i hi, Prod.mk.injEq] at h
          obtain ⟨h1, h2⟩ := h
          subst h2
          refine ⟨?_, ?_, ?_⟩
          · intro e he hne
            rw [← h1] at he
            injection he with h3
            exact absurd h3.symm hne
          · intro _
            exact Or.inr ⟨headerInvoice db cart admin_id mobile name tax_rate
                payment_mode,
              headerCommitted_invoices db cart admin_id mobile name tax_rate
                payment_mode,
              headerCommitted_invoice_items db cart admin_id mobile name tax_rate
                payment_mode,
              headerCommitted_stock db cart admin_id mobile name tax_rate
                payment_mode⟩
          · intro id hid
            rw [← h1] at hid
            simp at hid
        · rw [checkoutTx_insertLine_high db cart admin_id mobile name tax_rate
              payment_mode i hi, Prod.mk.injEq] at h
          obtain ⟨h1, h2⟩ := h
          subst h2
          refine ⟨?_, ?_, ?_⟩
          · intro e he
            rw [← h1] at he
            simp at he
          · intro he
            rw [← h1] at he
            simp at he
          · intro id hid
            rw [← h1] at hid
            injection hid with h3
            subst h3
            refine ⟨⟨headerInvoice db cart admin_id mobile name tax_rate
                payment_mode, ?_,
              headerInvoice_id db cart admin_id mobile name tax_rate
                payment_mode⟩, ?_, ?_⟩
            · rw [postLines_invoices, headerCommitted_invoices]
            · rw [postLines_invoice_items, headerCommitted_invoice_items]
            · rw [postLines_stock, headerCommitted_stock]

/-- C1 witness: a fully successful checkout of the sample cart persists
one invoice (id 1) together with its invoice line and its stock delta. -/
theorem checkout_commit_anatomy_witness :
    (∃ inv, (checkout sampleDB sampleCart 1 "12345678" "Bob" 0 "Cash"
        none).2.invoices = sampleDB.invoices ++ [inv] ∧ inv.id = 1) ∧
    (checkout sampleDB sampleCart 1 "12345678" "Bob" 0 "Cash"
        none).2.invoice_items =
      sampleDB.invoice_items ++ sampleCart.map (lineRow 1) ∧
    (checkout sampleDB sampleCart 1 "12345678" "Bob" 0 "Cash" none).2.stock =
      sampleDB.stock ++ sampleCart.map (deltaRow (invoiceNumber 1)) :=
  (checkout_commit_anatomy sampleDB sampleCart 1 "12345678" "Bob" 0 "Cash" none
      (checkout sampleDB sampleCart 1 "12345678" "Bob" 0 "Cash" none).1
      (checkout sampleDB sampleCart 1 "12345678" "Bob" 0 "Cash" none).2
      rfl).2.2 1 rfl

/-- Inversion of a successful checkout: the reserved invoice id is the
sequence value and the final state is the two-phase committed state with
all lines and deltas posted. -/
theorem checkout_ok_inversion (db : DB) (cart : List CartLine) (admin_id : Nat)
    (mobile name : String) (tax_rate : ℚ) (payment_mode : String)
    (failAt : Option FailPoint) (id : Nat) (db' : DB)
    (h : checkout db cart admin_id mobile name tax_rate payment_mode failAt =
      (.ok id, db')) :
    id = db.next_invoice_id ∧
    db' = postLines
      (headerCommitted db cart admin_id mobile name tax_rate payment_mode)
      db.next_invoice_id (invoiceNumber db.next_invoice_id) cart := by
  unfold checkout at h
  cases hv : checkoutValidate db cart mobile with
  | some e0 =>
    rw [hv, Prod.mk.injEq] at h
    obtain ⟨h1, _⟩ := h
    simp at h1
  | none =>
    rw [hv] at h
    cases failAt with
    | none =>
      rw [checkoutTx_none, Prod.mk.injEq] at h
      obtain ⟨h1, h2⟩ := h
      injection h1 with h3
      exact ⟨h3.symm, h2.symm⟩
    | some fp =>
      cases fp with
      | createUser =>
        rw [checkoutTx_createUser, Prod.mk.injEq] at h
        obtain ⟨h1, _⟩ := h
        simp at h1
      | insertInvoice =>
        rw [checkoutTx_insertInvoice, Prod.mk.injEq] at h
        obtain ⟨h1, _⟩ := h
        simp at h1
      | finalCommit =>
        rw [checkoutTx_finalCommit, Prod.mk.injEq] at h
        obtain ⟨h1, _⟩ := h
        simp at h1
      | insertLine i =>
        by_cases hi : i < cart.length
        · rw [checkoutTx_insertLine db cart admin_id mobile name tax_rate
              payment_mode i hi, Prod.mk.injEq] at h
          obtain ⟨h1, _⟩ := h
          simp at h1
        · rw [checkoutTx_insertLine_high db cart admin_id mobile name tax_rate
              payment_mode i hi, Prod.mk.injEq] at h
          obtain ⟨h1, h2⟩ := h
          injection h1 with h3
          exact ⟨h3.symm, h2.symm⟩

theorem dbWF_invoice_lt (db : DB) (hwf : dbWF db = true) :
    ∀ inv ∈ db.invoices, inv.id < db.next_invoice_id := by
  unfold dbWF at hwf
  rw [Bool.and_eq_true] at hwf
  intro inv hinv
  simpa using List.all_eq_true.mp hwf.1 inv hinv

theorem dbWF_line_lt (db : DB) (hwf : dbWF db = true) :
    ∀ l ∈ db.invoice_items, l.invoice_id < db.next_invoice_id := by
  unfold dbWF at hwf
  rw [Bool.and_eq_true] at hwf
  intro l hl
  simpa using List.all_eq_true.mp hwf.2 l hl

theorem lineRow_filter_self (cart : List CartLine) (N : Nat) :
    (cart.map (lineRow N)).filter (fun l => l.invoice_id == N) =
      cart.map (lineRow N) := by
  rw [List.filter_eq_self]
  intro l hl
  obtain ⟨c, _, rfl⟩ := List.mem_map.mp hl
  simp [lineRow]

theorem lineRow_filter_other (cart : List CartLine) (N M : Nat) (h : M ≠ N) :
    (cart.map (lineRow N)).filter (fun l => l.invoice_id == M) = [] := by
  rw [List.filter_eq_nil_iff]
  intro l hl
  obtain ⟨c, _, rfl⟩ := List.mem_map.mp hl
  simp [lineRow]
  omega

theorem lineRow_sum (cart : List CartLine) (N : Nat) :
    ((cart.map (lineRow N)).map
      (fun l => l.unit_price * (l.quantity : ℚ))).sum = cartSubtotal cart := by
  rw [List.map_map]
  unfold cartSubtotal
  congr 1

theorem headerTotalsWF_headerCommitted (db : DB) (cart : List CartLine)
    (admin_id : Nat) (mobile name : String) (tax_rate : ℚ)
    (payment_mode : String) (h : headerTotalsWF db = true) :
    headerTotalsWF
      (headerCommitted db cart admin_id mobile name tax_rate payment_mode) =
      true := by
  unfold headerTotalsWF at h ⊢
  rw [headerCommitted_invoices, List.all_append, Bool.and_eq_true]
  refine ⟨h, ?_⟩
  rw [List.all_cons, List.all_nil, Bool.and_true]
  exact beq_iff_eq.mpr rfl

theorem headerTotalsWF_postLines (db : DB) (invoice_id : Nat)
    (inv_no : String) (cart : List CartLine) :
    headerTotalsWF (postLines db invoice_id inv_no cart) =
      headerTotalsWF db := by
  unfold headerTotalsWF
  rw [postLines_invoices]

/-- C4 counterexample: in the reachable state left by a checkout that
failed while inserting the first invoice line (the two-phase commit of
C1), the stranded invoice header has `subtotal = 10` — the cart's
total — while it owns no invoice lines at all, so its subtotal does not
equal the sum of `unit_price * quantity` over its lines and the
invoice-totals invariant `totalsWF` is false of that state.  Hence the
claim's "for every persisted invoice, subtotal equals the sum over its
lines" is false of the program. -/
theorem invoice_totals_dangling_header_cex :
    totalsWF (checkout sampleDB sampleCart 1 "12345678" "Bob" 0 "Cash"
        (some (.insertLine 0))).2 = false ∧
    ∃ inv ∈ (checkout sampleDB sampleCart 1 "12345678" "Bob" 0 "Cash"
        (some (.insertLine 0))).2.invoices,
      inv.subtotal ≠
        (((checkout sampleDB sampleCart 1 "12345678" "Bob" 0 "Cash"
              (some (.insertLine 0))).2.invoice_items.filter
            (fun l => l.invoice_id == inv.id)).map
          (fun l => l.unit_price * (l.quantity : ℚ))).sum := by
  have hD : (checkout sampleDB sampleCart 1 "12345678" "Bob" 0 "Cash"
      (some (.insertLine 0))).2 =
      headerCommitted sampleDB sampleCart 1 "12345678" "Bob" 0 "Cash" := rfl
  have hsubt : (headerInvoice sampleDB sampleCart 1 "12345678" "Bob" 0
      "Cash").subtotal = 10 := by
    show cartSubtotal sampleCart = 10
    unfold cartSubtotal sampleCart
    norm_num
  have hitems : (headerCommitted sampleDB sampleCart 1 "12345678" "Bob" 0
      "Cash").invoice_items = [] := by
    rw [headerCommitted_invoice_items]
    rfl
  have hinvs : (headerCommitted sampleDB sampleCart 1 "12345678" "Bob" 0
      "Cash").invoices =
      [headerInvoice sampleDB sampleCart 1 "12345678" "Bob" 0 "Cash"] := by
    rw [headerCommitted_invoices]
    rfl
  constructor
  · rw [hD]
    unfold totalsWF
    rw [hinvs, hitems]
    simp [hsubt]
  · rw [hD]
    refine ⟨headerInvoice sampleDB sampleCart 1 "12345678" "Bob" 0 "Cash",
      by rw [hinvs]; simp, ?_⟩
    rw [hitems]
    simp [hsubt]

/-- C4 amended: for every *successful* checkout the persisted invoice
satisfies `subtotal = Σ (unit_price × qty)` over the cart lines,
`tax = round(subtotal × tax_rate, 2)`,
`total = round(subtotal + tax, 2)`, and its subtotal equals the sum of
`unit_price * quantity` over its persisted invoice lines; a successful
checkout also preserves the full invoice-totals invariant for all
previously persisted invoices.  The clause `total == round(subtotal +
tax, 2)` moreover holds of every persisted invoice in every reachable
state — it is preserved by every checkout outcome, including failures
that strand a header.  But `subtotal == Σ line.unit_price *
line.quantity over its lines` does not hold of every persisted invoice:
an invoice header stranded by a failure between the header commit and
the final commit keeps the cart's subtotal while owning no lines. -/
theorem checkout_invoice_totals :
    (∀ (db : DB) (cart : List CartLine) (admin_id : Nat)
       (mobile name : String) (tax_rate : ℚ) (payment_mode : String)
       (id : Nat) (db' : DB),
       dbWF db = true →
       checkout db cart admin_id mobile name tax_rate payment_mode none =
         (.ok id, db') →
       (∃ inv ∈ db'.invoices, inv.id = id ∧
         inv.subtotal = cartSubtotal cart ∧
         inv.tax = round2 (inv.subtotal * tax_rate) ∧
         inv.total = round2 (inv.subtotal + inv.tax) ∧
         inv.subtotal =
           ((db'.invoice_items.filter (fun l => l.invoice_id == id)).map
             (fun l => l.unit_price * (l.quantity : ℚ))).sum) ∧
       (totalsWF db = true → totalsWF db' = true)) ∧
    (∀ (db : DB) (cart : List CartLine) (admin_id : Nat)
       (mobile name : String) (tax_rate : ℚ) (payment_mode : String)
       (failAt : Option FailPoint) (res : Except CheckoutError Nat) (db' : DB),
       headerTotalsWF db = true →
       checkout db cart admin_id mobile name tax_rate payment_mode failAt =
         (res, db') →
       headerTotalsWF db' = true) := by
  constructor
  · intro db cart admin_id mobile name tax_rate payment_mode id db' hwf h
    obtain ⟨hid, hdb⟩ := checkout_ok_inversion db cart admin_id mobile name
      tax_rate payment_mode none id db' h
    subst hid
    subst hdb
    have hinvs : (postLines
        (headerCommitted db cart admin_id mobile name tax_rate payment_mode)
        db.next_invoice_id (invoiceNumber db.next_invoice_id) cart).invoices =
        db.invoices ++
          [headerInvoice db cart admin_id mobile name tax_rate payment_mode] := by
      rw [postLines_invoices, headerCommitted_invoices]
    have hitems : (postLines
        (headerCommitted db cart admin_id mobile name tax_rate payment_mode)
        db.next_invoice_id (invoiceNumber db.next_invoice_id) cart).invoice_items =
        db.invoice_items ++ cart.map (lineRow db.next_invoice_id) := by
      rw [postLines_invoice_items, headerCommitted_invoice_items]
    have hfil : (db.invoice_items ++ cart.map (lineRow db.next_invoice_id)).filter
        (fun l => l.invoice_id == db.next_invoice_id) =
        cart.map (lineRow db.next_invoice_id) := by
      rw [List.filter_append, lineRow_filter_self]
      have hnil : db.invoice_items.filter
          (fun l => l.invoice_id == db.next_invoice_id) = [] := by
        rw [List.filter_eq_nil_iff]
        intro l hl
        have := dbWF_line_lt db hwf l hl
        simp
        omega
      rw [hnil]
      simp
    constructor
    · refine ⟨headerInvoice db cart admin_id mobile name tax_rate payment_mode,
        ?_, headerInvoice_id db cart admin_id mobile name tax_rate payment_mode,
        rfl, rfl, rfl, ?_⟩
      · rw [hinvs]
        simp
      · rw [hitems, hfil, lineRow_sum]
        rfl
    · intro htw
      unfold totalsWF at htw ⊢
      rw [hinvs, hitems, List.all_append, Bool.and_eq_true]
      constructor
      · rw [List.all_eq_true]
        intro inv hinv
        have hold := List.all_eq_true.mp htw inv hinv
        have hne : inv.id ≠ db.next_invoice_id := by
          have := dbWF_invoice_lt db hwf inv hinv
          omega
        rw [List.filter_append, lineRow_filter_other cart db.next_invoice_id
          inv.id hne]
        simpa using hold
      · rw [List.all_eq_true]
        intro inv hinv
        rw [List.mem_singleton] at hinv
        subst hinv
        rw [List.filter_append, headerInvoice_id, lineRow_filter_self]
        have hnil : db.invoice_items.filter
            (fun l => l.invoice_id == db.next_invoice_id) = [] := by
          rw [List.filter_eq_nil_iff]
          intro l hl
          have := dbWF_line_lt db hwf l hl
          simp
          omega
        rw [hnil]
        simp
        exact ⟨rfl, by rw [← List.map_map, lineRow_sum]; rfl⟩
  · intro db cart admin_id mobile name tax_rate payment_mode failAt res db' hw h
    unfold checkout at h
    cases hv : checkoutValidate db cart mobile with
    | some e0 =>
      rw [hv, Prod.mk.injEq] at h
      obtain ⟨_, h2⟩ := h
      rw [← h2]
      exact hw
    | none =>
      rw [hv] at h
      have hcommit : headerTotalsWF (headerCommitted db cart admin_id mobile
          name tax_rate payment_mode) = true :=
        headerTotalsWF_headerCommitted db cart admin_id mobile name tax_rate
          payment_mode hw
      have hpost : headerTotalsWF (postLines
          (headerCommitted db cart admin_id mobile name tax_rate payment_mode)
          db.next_invoice_id (invoiceNumber db.next_invoice_id) cart) = true := by
        rw [headerTotalsWF_postLines]
        exact hcommit
      cases failAt with
      | none =>
        rw [checkoutTx_none, Prod.mk.injEq] at h
        obtain ⟨_, h2⟩ := h
        rw [← h2]
        exact hpost
      | some fp =>
        cases fp with
        | createUser =>
          rw [checkoutTx_createUser, Prod.mk.injEq] at h
          obtain ⟨_, h2⟩ := h
          rw [← h2]
          exact hw
        | insertInvoice =>
          rw [checkoutTx_insertInvoice, Prod.mk.injEq] at h
          obtain ⟨_, h2⟩ := h
          rw [← h2]
          exact hw
        | finalCommit =>
          rw [checkoutTx_finalCommit, Prod.mk.injEq] at h
          obtain ⟨_, h2⟩ := h
          rw [← h2]
          exact hcommit
        | insertLine i =>
          by_cases hi : i < cart.length
          · rw [checkoutTx_insertLine db cart admin_id mobile name tax_rate
                payment_mode i hi, Prod.mk.injEq] at h
            obtain ⟨_, h2⟩ := h
            rw [← h2]
            exact hcommit
          · rw [checkoutTx_insertLine_high db cart admin_id mobile name
                tax_rate payment_mode i hi, Prod.mk.injEq] at h
            obtain ⟨_, h2⟩ := h
            rw [← h2]
            exact hpost

/-- C4 witness: checking out the sample cart (two units at 5 each, tax
rate 0) persists an invoice whose stored totals satisfy the equations
and carries the totals invariant over from the initially empty tables;
and the surviving header-totals clause still holds of the state left by
the mid-loop failure. -/
theorem checkout_invoice_totals_witness :
    ((∃ inv ∈ (checkout sampleDB sampleCart 1 "12345678" "Bob" 0 "Cash"
        none).2.invoices, inv.id = 1 ∧
      inv.subtotal = cartSubtotal sampleCart ∧
      inv.tax = round2 (inv.subtotal * 0) ∧
      inv.total = round2 (inv.subtotal + inv.tax) ∧
      inv.subtotal =
        (((checkout sampleDB sampleCart 1 "12345678" "Bob" 0 "Cash"
            none).2.invoice_items.filter (fun l => l.invoice_id == 1)).map
          (fun l => l.unit_price * (l.quantity : ℚ))).sum) ∧
    (totalsWF sampleDB = true →
      totalsWF (checkout sampleDB sampleCart 1 "12345678" "Bob" 0 "Cash"
        none).2 = true)) ∧
    headerTotalsWF (checkout sampleDB sampleCart 1 "12345678" "Bob" 0 "Cash"
      (some (.insertLine 0))).2 = true :=
  ⟨checkout_invoice_totals.1 sampleDB sampleCart 1 "12345678" "Bob" 0 "Cash" 1
      (checkout sampleDB sampleCart 1 "12345678" "Bob" 0 "Cash" none).2
      (by decide) rfl,
   checkout_invoice_totals.2 sampleDB sampleCart 1 "12345678" "Bob" 0 "Cash"
      (some (.insertLine 0))
      (checkout sampleDB sampleCart 1 "12345678" "Bob" 0 "Cash"
        (some (.insertLine 0))).1
      (checkout sampleDB sampleCart 1 "12345678" "Bob" 0 "Cash"
        (some (.insertLine 0))).2
      (by decide) rfl⟩

theorem invNumWF_spec (db : DB) (h : invNumWF db = true) :
    (∀ inv ∈ db.invoices, inv.invoice_number = invoiceNumber inv.id ∧
      inv.id < db.next_invoice_id) ∧
    (db.invoices.map (fun inv => inv.id)).Nodup := by
  unfold invNumWF at h
  rw [Bool.and_eq_true] at h
  constructor
  · intro inv hinv
    have h0 := List.all_eq_true.mp h.1 inv hinv
    rw [Bool.and_eq_true] at h0
    exact ⟨by simpa using h0.1, by simpa using h0.2⟩
  · simpa using h.2

/-- C5: invoice numbers are unique across the lifetime of the system,
and each is derived deterministically from the newly assigned invoice
identifier as the zero-padded sequence value `INV-%06d` — no random
identifier is involved.  Concretely: the zero-padded formatting is
injective; a successful checkout both preserves the invoice-number
discipline (`invNumWF`: every stored number is the formatting of its
row id, ids stay below the sequence counter and remain pairwise
distinct) and stores the formatted number on the new invoice; and in
every state satisfying the discipline — hence after any run of
checkouts from the empty schema — the stored invoice numbers are
pairwise distinct. -/
theorem invoice_numbers_unique :
    (∀ a b : Nat, invoiceNumber a = invoiceNumber b → a = b) ∧
    (∀ (db : DB) (cart : List CartLine) (admin_id : Nat) (mobile name : String)
       (tax_rate : ℚ) (payment_mode : String) (id : Nat) (db' : DB),
       invNumWF db = true →
       checkout db cart admin_id mobile name tax_rate payment_mode none =
         (.ok id, db') →
       invNumWF db' = true ∧
       (∃ inv ∈ db'.invoices, inv.id = id ∧
          inv.invoice_number = invoiceNumber id) ∧
       (db'.invoices.map (fun inv => inv.invoice_number)).Nodup) := by
  constructor
  · exact fun a b hab => invoiceNumber_inj hab
  · intro db cart admin_id mobile name tax_rate payment_mode id db' hwf h
    obtain ⟨hid, hdb⟩ := checkout_ok_inversion db cart admin_id mobile name
      tax_rate payment_mode none id db' h
    subst hid
    subst hdb
    obtain ⟨hall, hnd⟩ := invNumWF_spec db hwf
    have hinvs : (postLines
        (headerCommitted db cart admin_id mobile name tax_rate payment_mode)
        db.next_invoice_id (invoiceNumber db.next_invoice_id) cart).invoices =
        db.invoices ++
          [headerInvoice db cart admin_id mobile name tax_rate payment_mode] := by
      rw [postLines_invoices, headerCommitted_invoices]
    have hnext : (postLines
        (headerCommitted db cart admin_id mobile name tax_rate payment_mode)
        db.next_invoice_id (invoiceNumber db.next_invoice_id)
        cart).next_invoice_id = db.next_invoice_id + 1 := by
      rw [postLines_next_invoice_id, headerCommitted_next_invoice_id]
    have hhdr_num : (headerInvoice db cart admin_id mobile name tax_rate
        payment_mode).invoice_number =
        invoiceNumber (headerInvoice db cart admin_id mobile name tax_rate
          payment_mode).id := rfl
    have hhdr_id : (headerInvoice db cart admin_id mobile name tax_rate
        payment_mode).id = db.next_invoice_id :=
      headerInvoice_id db cart admin_id mobile name tax_rate payment_mode
    have hids : ((db.invoices ++
        [headerInvoice db cart admin_id mobile name tax_rate payment_mode]).map
          (fun inv => inv.id)).Nodup := by
      rw [List.map_append, List.nodup_append]
      refine ⟨hnd, by simp, ?_⟩
      rw [List.disjoint_left]
      intro a ha hmem
      simp [hhdr_id] at hmem
      obtain ⟨inv, hinv, hid2⟩ := List.mem_map.mp ha
      have := (hall inv hinv).2
      omega
    refine ⟨?_, ?_, ?_⟩
    · unfold invNumWF
      rw [hinvs, hnext, Bool.and_eq_true]
      constructor
      · rw [List.all_append, Bool.and_eq_true]
        constructor
        · rw [List.all_eq_true]
          intro inv hinv
          obtain ⟨h1, h2⟩ := hall inv hinv
          rw [Bool.and_eq_true]
          exact ⟨by simp [h1], by simp; omega⟩
        · rw [List.all_eq_true]
          intro inv hinv
          rw [List.mem_singleton] at hinv
          subst hinv
          rw [Bool.and_eq_true]
          exact ⟨by rw [hhdr_num]; simp, by simp [hhdr_id]⟩
      · simpa using hids
    · refine ⟨headerInvoice db cart admin_id mobile name tax_rate payment_mode,
        by rw [hinvs]; simp, hhdr_id, by rw [hhdr_num, hhdr_id]⟩
    · have hnums : (postLines
          (headerCommitted db cart admin_id mobile name tax_rate payment_mode)
          db.next_invoice_id (invoiceNumber db.next_invoice_id)
          cart).invoices.map (fun inv => inv.invoice_number) =
          ((db.invoices ++ [headerInvoice db cart admin_id mobile name tax_rate
            payment_mode]).map (fun inv => inv.id)).map invoiceNumber := by
        rw [hinvs, List.map_map]
        apply List.map_congr_left
        intro inv hinv
        rcases List.mem_append.mp hinv with h0 | h0
        · exact (hall inv h0).1
        · rw [List.mem_singleton] at h0
          subst h0
          exact hhdr_num
      rw [hnums]
      exact List.Nodup.map (fun a b hab => invoiceNumber_inj hab) hids

/-- C5 witness: after one successful checkout from the empty invoice
table, the discipline holds, the new invoice carries number
`invoiceNumber 1` (= "INV-000001"), and all stored numbers are
distinct. -/
theorem invoice_numbers_unique_witness :
    invNumWF (checkout sampleDB sampleCart 1 "12345678" "Bob" 0 "Cash"
      none).2 = true ∧
    (∃ inv ∈ (checkout sampleDB sampleCart 1 "12345678" "Bob" 0 "Cash"
        none).2.invoices, inv.id = 1 ∧
      inv.invoice_number = invoiceNumber 1) ∧
    ((checkout sampleDB sampleCart 1 "12345678" "Bob" 0 "Cash"
        none).2.invoices.map (fun inv => inv.invoice_number)).Nodup :=
  invoice_numbers_unique.2 sampleDB sampleCart 1 "12345678" "Bob" 0 "Cash" 1
    (checkout sampleDB sampleCart 1 "12345678" "Bob" 0 "Cash" none).2
    (by decide) rfl

/-- C7: `inventory_new` (the spec's `create_item`) fails with
DuplicateSKU whenever some item of the same admin has the same
case/whitespace-normalized SKU (`lower(trim(sku))`), and succeeds —
inserting the item — when no item of that admin matches, in particular
for the same SKU under a different admin.  E.g. after creating "ABC-1"
for an admin, creating " abc-1 " for that admin fails. -/
theorem create_item_duplicate_sku (db : DB) (admin_id : Nat)
    (sku0 name0 description0 : String) (unit_price : ℚ) (new_id : Nat)
    (hsku : strip sku0 ≠ "") (hname : strip name0 ≠ "") :
    ((∃ it ∈ db.items, it.admin_id = admin_id ∧ normSku it.sku = normSku sku0) →
       inventory_new db admin_id sku0 name0 description0 unit_price new_id =
         .error .duplicateSKU) ∧
    ((∀ it ∈ db.items, it.admin_id = admin_id → normSku it.sku ≠ normSku sku0) →
       inventory_new db admin_id sku0 name0 description0 unit_price new_id =
         .ok { db with items := db.items ++
                 [{ id := new_id, admin_id := admin_id, sku := strip sku0,
                    name := strip name0, description := strip description0,
                    unit_price := unit_price }] }) := by
  have hnorm : lowerStr (strip (strip sku0)) = normSku sku0 := normSku_strip sku0
  constructor
  · rintro ⟨it, hit, hadm, hsk⟩
    have hany : db.items.any (fun it2 => it2.admin_id == admin_id &&
        normSku it2.sku == lowerStr (strip (strip sku0))) = true := by
      rw [List.any_eq_true]
      refine ⟨it, hit, ?_⟩
      rw [hnorm, Bool.and_eq_true]
      exact ⟨by simp [hadm], by simp [hsk]⟩
    simp [inventory_new, hsku, hname, hany]
  · intro hall
    have hany : db.items.any (fun it2 => it2.admin_id == admin_id &&
        normSku it2.sku == lowerStr (strip (strip sku0))) = false := by
      rw [List.any_eq_false]
      intro it2 hit2
      rw [hnorm]
      simp
      intro hadm
      exact hall it2 hit2 hadm
    simp [inventory_new, hsku, hname, hany]

/-- C7 witness: with "ABC-1" already created for admin 1, creating
" abc-1 " for admin 1 fails with DuplicateSKU, while creating it for
admin 2 succeeds. -/
theorem create_item_duplicate_sku_witness :
    inventory_new catalogDB 1 " abc-1 " "Rival" "" 3 2 =
      .error .duplicateSKU ∧
    inventory_new catalogDB 2 " abc-1 " "Rival" "" 3 2 =
      .ok { catalogDB with items := catalogDB.items ++
              [{ id := 2, admin_id := 2, sku := strip " abc-1 ",
                 name := strip "Rival", description := strip "",
                 unit_price := 3 }] } := by
  constructor
  · refine (create_item_duplicate_sku catalogDB 1 " abc-1 " "Rival" "" 3 2
      (by decide) (by decide)).1
      ⟨{ id := 1, admin_id := 1, sku := "ABC-1", name := "Thing",
         description := "", unit_price := 3 }, ?_, rfl, by decide⟩
    simp [catalogDB]
  · refine (create_item_duplicate_sku catalogDB 2 " abc-1 " "Rival" "" 3 2
      (by decide) (by decide)).2 ?_
    intro it hit hadm
    simp only [catalogDB] at hit
    rw [List.mem_singleton] at hit
    subst hit
    exact absurd hadm (by decide)

end Inventory
